import Mathlib

/-!
Shallow embedding of `src/native/wasmtime-android/src/wasmtime_jni.c`
(the Wasmtime JNI bridge of the Builder repository).

The C translation unit declares no global or static variables, so the
bridge carries no mutable state between calls; `BridgeState` is the
(empty) record of that state.  Each JNI entry point is embedded as a
pure function threading the bridge state, because the C functions only
log and return constants:

* `loadModuleFromBytes` ignores its byte array and returns the handle `0`;
* `instantiate` ignores the module handle and the WASI-config string and
  returns the handle `0`;
* `call` ignores the instance handle, the function name and the args
  document and returns the constant string `{"result":"stub"}`;
* `destroyInstance` and `destroyModule` do nothing;
* `loadModule` ignores its file argument and returns the handle `0`.

Android logging (`__android_log_print`) writes to a diagnostics
transport that the spec places out of scope; it does not touch bridge
state and is not modelled.
-/

namespace WasmBridge

/-- State of the JNI bridge.  `wasmtime_jni.c` declares no global or
static variable, so there is nothing in it. -/
structure BridgeState where
  deriving Repr, DecidableEq, Inhabited

/-- The fresh bridge state (there is only one). -/
def initState : BridgeState := {}

/-- The constant string the stub `call` returns:
`NewStringUTF(env, "{\"result\":\"stub\"}")`. -/
def stubResult : String := "\x7b\"result\":\"stub\"\x7d"

/-- Embedding of `Java_com_builder_runtime_wasm_WasmRuntime_loadModuleFromBytes`.
The body is `return 0;` whatever the byte array holds. -/
def loadModuleFromBytes (s : BridgeState) (wasmBytes : List Nat) :
    BridgeState × Int :=
  (s, 0)

/-- Embedding of `Java_com_builder_runtime_wasm_WasmRuntime_instantiate`.
The body reads the config string for logging and then `return 0;`. -/
def instantiate (s : BridgeState) (moduleHandle : Int)
    (wasiConfigJson : String) : BridgeState × Int :=
  (s, 0)

/-- Embedding of `Java_com_builder_runtime_wasm_WasmRuntime_call`.
The body reads the two strings for logging and returns
`NewStringUTF(env, "{\"result\":\"stub\"}")`. -/
def call (s : BridgeState) (instanceHandle : Int)
    (functionName argsJson : String) : BridgeState × String :=
  (s, stubResult)

/-- Embedding of `Java_com_builder_runtime_wasm_WasmRuntime_destroyInstance`.
The body only logs; it mutates nothing and returns `void`. -/
def destroyInstance (s : BridgeState) (instanceHandle : Int) : BridgeState :=
  s

/-- Embedding of `Java_com_builder_runtime_wasm_WasmRuntime_destroyModule`.
The body only logs; it mutates nothing and returns `void`. -/
def destroyModule (s : BridgeState) (moduleHandle : Int) : BridgeState :=
  s

/-- Embedding of `Java_com_builder_runtime_wasm_WasmRuntime_loadModule`.
The body is `return 0;` whatever file object is passed. -/
def loadModule (s : BridgeState) (wasmFile : String) : BridgeState × Int :=
  (s, 0)

/-- The well-formed-module header `\0asm` followed by version 1: the
smallest byte input the intended engine compiles successfully. -/
def emptyWasmModuleBytes : List Nat := [0, 97, 115, 109, 1, 0, 0, 0]

/-- The character for a single decimal digit `d < 10`. -/
def digitChar (d : Nat) : Char := Char.ofNat (48 + d)

/-- Modelled from the spec: the Invoker's value marshaling is absent
from the stub source (`call` returns a constant); the spec says 64-bit
integer result values are encoded as decimal strings.  Decimal-digit
characters of `n`, most significant first. -/
def natDecChars (n : Nat) : List Char :=
  if n = 0 then ['0'] else ((Nat.digits 10 n).map digitChar).reverse

/-- Modelled from the spec: encode a signed 64-bit integer result as a
decimal string (optional leading minus sign, then decimal digits). -/
def encodeI64 (i : Int) : String :=
  if i < 0 then String.mk ('-' :: natDecChars i.natAbs)
  else String.mk (natDecChars i.natAbs)

/-- The decimal digit a character denotes, when it does. -/
def decDigit? (c : Char) : Option Nat :=
  if 48 ≤ c.toNat ∧ c.toNat ≤ 57 then some (c.toNat - 48) else none

/-- Decode every character of a list as a decimal digit. -/
def decDigits? : List Char → Option (List Nat)
  | [] => some []
  | c :: cs =>
    match decDigit? c, decDigits? cs with
    | some d, some ds => some (d :: ds)
    | _, _ => none

/-- Modelled from the spec: re-parse a nonempty all-digit character
list (most significant first) as a natural number. -/
def parseDecNat (cs : List Char) : Option Nat :=
  if cs = [] then none
  else
    match decDigits? cs with
    | some ds => some (Nat.ofDigits 10 ds.reverse)
    | none => none

/-- Re-parse a decimal character list (optional leading minus sign) as
a signed integer. -/
def parseDecIntChars : List Char → Option Int
  | [] => none
  | c :: cs =>
    if c = '-' then (parseDecNat cs).map (fun n : Nat => -(n : Int))
    else (parseDecNat (c :: cs)).map (fun n : Nat => (n : Int))

/-- Modelled from the spec: re-parse a decimal string (optional leading
minus sign) as a signed integer. -/
def parseDecInt (s : String) : Option Int :=
  parseDecIntChars s.data

lemma decDigit_digitChar {d : Nat} (hd : d < 10) :
    decDigit? (digitChar d) = some d := by
  interval_cases d <;> decide

lemma decDigits_map_digitChar {l : List Nat} (hl : ∀ d ∈ l, d < 10) :
    decDigits? (l.map digitChar) = some l := by
  induction l with
  | nil => rfl
  | cons d ds ih =>
    have hd : d < 10 := hl d (List.mem_cons_self d ds)
    have hds : ∀ x ∈ ds, x < 10 := fun x hx => hl x (List.mem_cons_of_mem d hx)
    simp only [List.map_cons, decDigits?, decDigit_digitChar hd, ih hds]

lemma natDecChars_ne_nil (n : Nat) : natDecChars n ≠ [] := by
  unfold natDecChars
  split
  · simp
  · next h =>
    simp [Nat.digits_ne_nil_iff_ne_zero.mpr h]

lemma mem_natDecChars_isDigit {n : Nat} {c : Char} (hc : c ∈ natDecChars n) :
    48 ≤ c.toNat ∧ c.toNat ≤ 57 := by
  unfold natDecChars at hc
  split at hc
  · rcases List.mem_singleton.mp hc with rfl
    decide
  · next h =>
    rw [List.mem_reverse] at hc
    rcases List.mem_map.mp hc with ⟨d, hd, rfl⟩
    have hlt : d < 10 := Nat.digits_lt_base (by norm_num) hd
    interval_cases d <;> decide

lemma parseDecNat_natDecChars (n : Nat) :
    parseDecNat (natDecChars n) = some n := by
  by_cases h : n = 0
  · subst h; decide
  · have hdig : ∀ d ∈ (Nat.digits 10 n).reverse, d < 10 := by
      intro d hd
      exact Nat.digits_lt_base (by norm_num) (List.mem_reverse.mp hd)
    have hchars : natDecChars n = ((Nat.digits 10 n).reverse).map digitChar := by
      unfold natDecChars
      rw [if_neg h, List.map_reverse]
    unfold parseDecNat
    rw [if_neg (natDecChars_ne_nil n), hchars,
      decDigits_map_digitChar hdig]
    simp [Nat.ofDigits_digits]

lemma mem_natDecChars_ne_minus {n : Nat} {c : Char}
    (hc : c ∈ natDecChars n) : c ≠ '-' := by
  intro hEq
  have h48 := (mem_natDecChars_isDigit hc).1
  rw [hEq] at h48
  exact absurd h48 (by decide)

lemma parseDecInt_encodeI64 (i : Int) :
    parseDecInt (encodeI64 i) = some i := by
  by_cases hneg : i < 0
  · have henc : encodeI64 i = String.mk ('-' :: natDecChars i.natAbs) := by
      unfold encodeI64
      rw [if_pos hneg]
    rw [henc]
    show (if ('-' : Char) = '-' then
        (parseDecNat (natDecChars i.natAbs)).map (fun n : Nat => -(n : Int))
      else
        (parseDecNat ('-' :: natDecChars i.natAbs)).map
          (fun n : Nat => (n : Int))) = some i
    rw [if_pos rfl, parseDecNat_natDecChars, Option.map_some']
    congr 1
    omega
  · have hpos : (0 : Int) ≤ i := le_of_not_lt hneg
    have henc : encodeI64 i = String.mk (natDecChars i.natAbs) := by
      unfold encodeI64
      rw [if_neg hneg]
    obtain ⟨c, cs, hcons⟩ :=
      List.exists_cons_of_ne_nil (natDecChars_ne_nil i.natAbs)
    have hcmem : c ∈ natDecChars i.natAbs := by
      rw [hcons]; exact List.mem_cons_self c cs
    rw [henc]
    show parseDecIntChars (natDecChars i.natAbs) = some i
    rw [hcons]
    show (if c = '-' then
        (parseDecNat cs).map (fun n : Nat => -(n : Int))
      else
        (parseDecNat (c :: cs)).map (fun n : Nat => (n : Int))) = some i
    rw [if_neg (mem_natDecChars_ne_minus hcmem), ← hcons,
      parseDecNat_natDecChars, Option.map_some']
    congr 1
    omega

end WasmBridge

namespace WasmBridge

/-- Claim C8: the spec says encoding a signed 64-bit integer result as
a decimal string in the result document and re-parsing that string
recovers exactly the original value, over the full signed 64-bit
range.  (Encoder and re-parser are modelled from the spec, since the
stub's `call` performs no marshaling.) -/
theorem i64_decimal_roundtrip (i : Int)
    (h : -(2 ^ 63) ≤ i ∧ i < 2 ^ 63) :
    parseDecInt (encodeI64 i) = some i :=
  parseDecInt_encodeI64 i

/-- Witness for `i64_decimal_roundtrip` at the most negative signed
64-bit value. -/
theorem i64_decimal_roundtrip_witness :
    (-(2 ^ 63) ≤ (-9223372036854775808 : Int) ∧
      (-9223372036854775808 : Int) < 2 ^ 63) ∧
    parseDecInt (encodeI64 (-9223372036854775808)) =
      some (-9223372036854775808) :=
  ⟨⟨by norm_num, by norm_num⟩,
    i64_decimal_roundtrip (-9223372036854775808) ⟨by norm_num, by norm_num⟩⟩

end WasmBridge

namespace WasmBridge

/-- Claim C1: the spec's concrete scenario expects
`call(h, "add", "[2,3]")` on an instance of a module exporting
`add(i32,i32)->i32` to return `{"ok":true,"values":["5"]}` (or an
equivalent numeric encoding).  The stub returns the constant
`{"result":"stub"}` instead, which is neither encoding. -/
theorem call_add_returns_stub :
    (call initState 1 "add" "[2,3]").2 = stubResult ∧
    (call initState 1 "add" "[2,3]").2 ≠ "\x7b\"ok\":true,\"values\":[\"5\"]\x7d" ∧
    (call initState 1 "add" "[2,3]").2 ≠ "\x7b\"ok\":true,\"values\":[5]\x7d" := by
  refine ⟨rfl, ?_, ?_⟩ <;> decide

/-- Claim C2: the spec says every result document is
`{"ok":true,"values":[...]}` or `{"ok":false,"kind":...,"message":...}`.
The stub returns the constant `{"result":"stub"}` for every input; its
top-level key is `result`, so it is of neither shape (its character
list starts with `{"r`, not `{"o`). -/
theorem call_result_is_stub_constant (s : BridgeState) (h : Int)
    (f a : String) :
    (call s h f a).2 = stubResult ∧
    stubResult.data.take 4 ≠ "\x7b\"ok\"".data.take 4 := by
  exact ⟨rfl, by decide⟩

/-- Claim C3: the spec says `loadModuleFromBytes` returns `0` exactly on
failure and a nonzero handle on successful compilation.  The stub
returns `0` for every byte input — including the well-formed empty
module — and allocates no handle-table slot and no reference count. -/
theorem loadModuleFromBytes_always_zero (s : BridgeState)
    (bs : List Nat) :
    (loadModuleFromBytes s bs).2 = 0 ∧
    (loadModuleFromBytes s emptyWasmModuleBytes).2 = 0 ∧
    (loadModuleFromBytes s bs).1 = s := by
  exact ⟨rfl, rfl, rfl⟩

/-- Claim C4: the spec says `instantiate` returns a new nonzero Instance
handle on success and never `0` for a successful instantiation.  The
stub returns `0` for every module handle and configuration document,
and creates no Instance in any lifecycle state. -/
theorem instantiate_always_zero (s : BridgeState) (mh : Int)
    (cfg : String) :
    (instantiate s mh cfg).2 = 0 ∧ (instantiate s mh cfg).1 = s := by
  exact ⟨rfl, rfl⟩

/-- Claim C5: the spec says `destroyModule` fails with `ModuleInUse`
while any live Instance references the Module and succeeds afterwards.
The stub `destroyModule` is an unconditional no-op returning `void`: it
has no error channel at all, so it can never report `ModuleInUse`, and
it behaves identically on every handle in every state. -/
theorem destroyModule_unconditional_noop (s : BridgeState) (h h' : Int) :
    destroyModule s h = s ∧ destroyModule s h = destroyModule s h' := by
  exact ⟨rfl, rfl⟩

/-- Claim C6: the spec says a call whose args-array length differs from
the export's declared arity fails with `ArityMismatch` before reaching
the engine.  The stub performs no arity check: calling a two-argument
export with a one-element args document returns the same constant stub
document as any other call, not an error document. -/
theorem call_no_arity_check :
    (call initState 1 "add" "[1]").2 = stubResult ∧
    (call initState 1 "add" "[1]").2 = (call initState 1 "add" "[2,3]").2 ∧
    (call initState 1 "add" "[1]").2 ≠
      "\x7b\"ok\":false,\"kind\":\"ArityMismatch\",\"message\":\"\"\x7d" := by
  refine ⟨rfl, rfl, ?_⟩
  decide

/-- Claim C7: the spec says a call exceeding the fuel or wall-clock
budget returns `Trap{ResourceExhausted}`, moves the Instance to
`Trapped`, and every later call fails with `InstanceTrapped`.  The stub
keeps no lifecycle state whatsoever: a call leaves the bridge state
unchanged, and the call immediately after any call returns exactly the
same constant success-less stub document, never an `InstanceTrapped`
error. -/
theorem call_keeps_no_trap_state (s : BridgeState) (h : Int)
    (f a f' a' : String) :
    (call s h f a).1 = s ∧
    call (call s h f a).1 h f' a' = call s h f' a' ∧
    (call (call s h f a).1 h f' a').2 = stubResult := by
  exact ⟨rfl, rfl, rfl⟩

/-- Claim C9: the stub `call` is a two-run noninterference witness: the
returned string is the same constant `{"result":"stub"}` for every pair
of invocations, whatever the instance handles, function names and args
documents, so the output reveals nothing about the inputs. -/
theorem call_two_run_constant (s₁ s₂ : BridgeState) (h₁ h₂ : Int)
    (f₁ f₂ a₁ a₂ : String) :
    (call s₁ h₁ f₁ a₁).2 = (call s₂ h₂ f₂ a₂).2 ∧
    (call s₁ h₁ f₁ a₁).2 = stubResult := by
  exact ⟨rfl, rfl⟩

/-- Claim C10: `destroyInstance` and `destroyModule` return normally
without modifying any bridge state, and every subsequent operation on
any handle behaves exactly as it would have before the destroy call. -/
theorem destroy_is_frame (s : BridgeState) (h h' : Int)
    (f a cfg : String) (bs : List Nat) :
    destroyInstance s h = s ∧
    destroyModule s h = s ∧
    call (destroyInstance s h) h' f a = call s h' f a ∧
    call (destroyModule s h) h' f a = call s h' f a ∧
    loadModuleFromBytes (destroyInstance s h) bs = loadModuleFromBytes s bs ∧
    instantiate (destroyModule s h) h' cfg = instantiate s h' cfg ∧
    destroyInstance (destroyModule s h) h' = destroyInstance s h' := by
  exact ⟨rfl, rfl, rfl, rfl, rfl, rfl, rfl⟩

end WasmBridge
